import Mathlib

/-!
Verification of `github_trending_feishu_card.py` (repository `benx-guo/github-trending`).

The Python source is shallowly embedded below.  Ambient effects (HTTP responses,
environment variables, the current UTC date) are passed as explicit parameters;
CPython library primitives used by the source (`int()`, `str.strip`, `str.split`,
`datetime.isocalendar`, `textwrap.shorten`, ...) are modelled from their documented
behaviour on ASCII input.
-/

namespace GithubTrending

/-- Python truthiness of an optional string (`None` and `""` are falsy). -/
def pyTruthyOpt : Option String → Bool
  | none => false
  | some s => if s = "" then false else true

/-- Python `a or b` for strings (`a` when truthy, else `b`). -/
def pyOrStr (a b : String) : String :=
  if a = "" then b else a

/-- Python `a or b` for optional strings. -/
def pyOrOpt (a b : Option String) : Option String :=
  if pyTruthyOpt a then a else b

/-- Python `str.strip()` (whitespace removed from both ends; ASCII whitespace). -/
def pyStrip (s : String) : String :=
  ⟨((s.data.dropWhile Char.isWhitespace).reverse.dropWhile Char.isWhitespace).reverse⟩

/-- Python `str.lstrip("/")`: remove leading slash characters. -/
def lstripSlashes (s : String) : String :=
  ⟨s.data.dropWhile (fun c => c = '/')⟩

/-- Python `str.replace(",", "")`: remove every comma. -/
def pyRemoveCommas (s : String) : String :=
  ⟨s.data.filter (fun c => c ≠ ',')⟩

/-- Digit run of a CPython integer literal: digits with single underscores
allowed between digits (`int("1_234") = 1234`, `int("1__2")` fails). -/
def digitsToNat : Nat → List Char → Option Nat
  | acc, [] => some acc
  | acc, c :: cs =>
    if c.isDigit then digitsToNat (acc * 10 + (c.toNat - 48)) cs
    else if c = '_' then
      match cs with
      | [] => none
      | d :: ds => if d.isDigit then digitsToNat (acc * 10 + (d.toNat - 48)) ds else none
    else none

/-- Unsigned part of CPython `int()`: at least one digit, underscores between digits. -/
def parseUnsignedPy : List Char → Option Nat
  | [] => none
  | c :: cs => if c.isDigit then digitsToNat (c.toNat - 48) cs else none

/-- Sign handling of CPython `int()` on the whitespace-stripped character list. -/
def pyIntCore : List Char → Option Int
  | [] => none
  | c :: rest =>
    if c = '-' then (parseUnsignedPy rest).map (fun (n : Nat) => -(n : Int))
    else if c = '+' then (parseUnsignedPy rest).map (fun (n : Nat) => (n : Int))
    else (parseUnsignedPy (c :: rest)).map (fun (n : Nat) => (n : Int))

/-- CPython `int(s)` on ASCII text: surrounding whitespace ignored, optional
single `+`/`-` sign, then a digit run; `none` models a raised `ValueError`. -/
def pyInt (s : String) : Option Int :=
  pyIntCore (pyStrip s).data

/-- An `<a>` element as seen by the extractor: its `href` attribute, if any. -/
structure Anchor where
  href : Option String
deriving DecidableEq, Repr

/-- An `<h2>` element: the first nested anchor, if any. -/
structure H2Tag where
  anchor : Option Anchor
deriving DecidableEq, Repr

/-- One `article.Box-row` block of the trending listing page, abstracted to the
pieces `fetch_trending` looks up.  Each text field holds the
`get_text(strip=True)` result of the corresponding element when the `find`
call locates it, and `none` when it does not. -/
structure Block where
  h2 : Option H2Tag
  descCol9 : Option String
  descFirstP : Option String
  langSpan : Option String
  stargazersText : Option String
  starsTodayText : Option String
deriving DecidableEq, Repr

/-- The record dict appended by `fetch_trending` for one block. -/
structure TrendingRecord where
  name : String
  url : String
  description : String
  language : String
  stars : Option Int
  stars_today : Option Int
deriving DecidableEq, Repr

/-- `description` of a block: `p.col-9` first, any `p` as fallback, else `""`. -/
def descriptionOf (item : Block) : String :=
  match item.descCol9 with
  | some t => t
  | none =>
    match item.descFirstP with
    | some t => t
    | none => ""

/-- `language_name` of a block: the `programmingLanguage` span's text, else `""`. -/
def languageOf (item : Block) : String :=
  match item.langSpan with
  | some t => t
  | none => ""

/-- `stars` of a block: the stargazers anchor text with commas removed, parsed
with `int()`; `None` when the anchor is missing or parsing fails. -/
def starsOf (item : Block) : Option Int :=
  match item.stargazersText with
  | none => none
  | some t => pyInt (pyRemoveCommas t)

/-- `stars_today` of a block: `text.split(" ")[0]` (the longest space-free
prefix) with commas removed, parsed with `int()`; `None` when the span is
missing or parsing fails. -/
def starsTodayOf (item : Block) : Option Int :=
  match item.starsTodayText with
  | none => none
  | some t => pyInt (pyRemoveCommas ⟨t.data.takeWhile (fun c => c ≠ ' ')⟩)

/-- Body of the `for item in repo_items` loop of `fetch_trending`: `none` when
the block is skipped (`continue`), `some` for the appended record. -/
def extractBlock (item : Block) : Option TrendingRecord :=
  match item.h2 with
  | none => none
  | some h2 =>
    match h2.anchor with
    | none => none
    | some a =>
      match a.href with
      | none => none
      | some href =>
        if href = "" then none
        else
          let repo_path := pyStrip href
          some
            { name := lstripSlashes repo_path
              url := "https://github.com" ++ repo_path
              description := descriptionOf item
              language := languageOf item
              stars := starsOf item
              stars_today := starsTodayOf item }

/-- The extraction stage of `fetch_trending`: iterate over the parsed blocks,
skipping and appending as `extractBlock` does. -/
def fetch_trending_extract : List Block → List TrendingRecord
  | [] => []
  | b :: bs =>
    match extractBlock b with
    | none => fetch_trending_extract bs
    | some r => r :: fetch_trending_extract bs

/-- A block has a usable title exactly when the `h2`, its anchor and a truthy
(non-empty) `href` are all present. -/
def hasTitle (item : Block) : Bool :=
  match item.h2 with
  | none => false
  | some h2 =>
    match h2.anchor with
    | none => false
    | some a =>
      match a.href with
      | none => false
      | some href => if href = "" then false else true

/-- The date part of `datetime.now(timezone.utc)`, passed explicitly. -/
structure PyDate where
  year : Int
  month : Int
  day : Int
deriving DecidableEq, Repr

/-- Gregorian leap-year test (as in CPython `datetime`). -/
def isLeapYear (y : Int) : Bool :=
  y % 4 == 0 && (!(y % 100 == 0) || y % 400 == 0)

/-- Days in the years before `year` (CPython `_days_before_year`). -/
def daysBeforeYear (year : Int) : Int :=
  let y := year - 1
  y * 365 + y.fdiv 4 - y.fdiv 100 + y.fdiv 400

/-- Days in `year` before month `m` (CPython `_days_before_month` table). -/
def daysBeforeMonth (y m : Int) : Int :=
  let base : Int :=
    if m = 1 then 0 else if m = 2 then 31 else if m = 3 then 59 else if m = 4 then 90
    else if m = 5 then 120 else if m = 6 then 151 else if m = 7 then 181
    else if m = 8 then 212 else if m = 9 then 243 else if m = 10 then 273
    else if m = 11 then 304 else 334
  base + (if 2 < m ∧ isLeapYear y then 1 else 0)

/-- Proleptic-Gregorian ordinal of a date, day 1 = 0001-01-01 (CPython `_ymd2ord`). -/
def ymd2ord (d : PyDate) : Int :=
  daysBeforeYear d.year + daysBeforeMonth d.year d.month + d.day

/-- Ordinal of the Monday starting ISO week 1 of `year` (CPython `_isoweek1monday`). -/
def isoweek1monday (year : Int) : Int :=
  let firstday := ymd2ord ⟨year, 1, 1⟩
  let firstweekday := (firstday + 6) % 7
  let week1monday := firstday - firstweekday
  if 3 < firstweekday then week1monday + 7 else week1monday

/-- CPython `date.isocalendar()`: the ISO 8601 `(year, week, weekday)` triple. -/
def isocalendar (d : PyDate) : Int × Int × Int :=
  let today := ymd2ord d
  let week := (today - isoweek1monday d.year).fdiv 7
  let day := (today - isoweek1monday d.year).fmod 7
  if week < 0 then
    let year := d.year - 1
    ((year : Int), (today - isoweek1monday year).fdiv 7 + 1,
      (today - isoweek1monday year).fmod 7 + 1)
  else if 52 ≤ week ∧ isoweek1monday (d.year + 1) ≤ today then
    (d.year + 1, 1, day + 1)
  else
    (d.year, week + 1, day + 1)

/-- `%02d` of a small non-negative integer (f-string `{week:02d}`, strftime `%m`/`%d`). -/
def pad2 (n : Int) : String :=
  if 0 ≤ n ∧ n < 10 then "0" ++ toString n else toString n

/-- `str(year)` / strftime `%Y` (identical for the years 1000-9999 handled here). -/
def fmtYear (y : Int) : String :=
  toString y

/-- `(language or "all").lower()` (ASCII lowering). -/
def langKey (language : Option String) : String :=
  (match language with
    | none => "all"
    | some s => if s = "" then "all" else s).toLower

/-- `build_source_tag`, with `datetime.now(timezone.utc)` passed in as `now`. -/
def build_source_tag (sinceArg : String) (language : Option String) (now : PyDate) : String :=
  let lang_key := langKey language
  if sinceArg = "weekly" then
    let yw := isocalendar now
    "github-trending:weekly:" ++ fmtYear yw.1 ++ "-W" ++ pad2 yw.2.1 ++ ":" ++ lang_key
  else if sinceArg = "monthly" then
    "github-trending:monthly:" ++ fmtYear now.year ++ "-" ++ pad2 now.month ++ ":" ++ lang_key
  else
    "github-trending:daily:" ++ fmtYear now.year ++ "-" ++ pad2 now.month ++ "-"
      ++ pad2 now.day ++ ":" ++ lang_key

/-- `current_date_ms`: milliseconds since the Unix epoch of midnight UTC of `now`. -/
def current_date_ms (now : PyDate) : Int :=
  (ymd2ord now - ymd2ord ⟨1970, 1, 1⟩) * 86400000

/-- The `fields` dict of one Bitable record (`URL` flattened to link/text). -/
structure BitableFields where
  Rank : Nat
  Repo : String
  Owner : String
  SpokenLanguage : String
  Language : String
  Stars : Int
  TodayStars : Int
  Description : String
  URLlink : String
  URLtext : String
  Date : Int
  Source : String
deriving DecidableEq, Repr

/-- One element of the `records` list sent to batch_create. -/
structure BitableRecord where
  fields : BitableFields
deriving DecidableEq, Repr

/-- Python `owner, _ = full_name.split("/", 1)` guarded by `"/" in full_name`. -/
def ownerOf (full_name : String) : String :=
  if full_name.data.contains '/' then ⟨full_name.data.takeWhile (fun c => c ≠ '/')⟩
  else full_name

/-- Python `repos[:limit]` (slice with a possibly negative `limit`). -/
def pySliceTo (l : List TrendingRecord) (limit : Int) : List TrendingRecord :=
  if 0 ≤ limit then l.take limit.toNat
  else l.take (l.length - (-limit).toNat)

/-- The record built for `repo` at 1-based `idx` in `build_bitable_records`. -/
def bitableRow (date_ms : Int) (source : String) (idx : Nat) (repo : TrendingRecord) :
    BitableRecord :=
  { fields :=
    { Rank := idx
      Repo := repo.name
      Owner := ownerOf repo.name
      SpokenLanguage := "all"
      Language := pyOrStr repo.language ""
      Stars := match repo.stars with | some v => v | none => 0
      TodayStars := match repo.stars_today with | some v => v | none => 0
      Description := pyOrStr repo.description ""
      URLlink := repo.url
      URLtext := repo.name
      Date := date_ms
      Source := source } }

/-- The `for idx, repo in enumerate(..., start=1)` loop of `build_bitable_records`. -/
def buildRows (date_ms : Int) (source : String) : Nat → List TrendingRecord → List BitableRecord
  | _, [] => []
  | idx, r :: rs => bitableRow date_ms source idx r :: buildRows date_ms source (idx + 1) rs

/-- `build_bitable_records`, with the ambient UTC date passed in as `now`. -/
def build_bitable_records (repos : List TrendingRecord) (language : Option String)
    (sinceArg : String) (limit : Int) (now : PyDate) : List BitableRecord :=
  buildRows (current_date_ms now) (build_source_tag sinceArg language now) 1
    (pySliceTo repos limit)

/-- Python `str.split()` (no argument): whitespace runs, empties dropped. -/
def pyWords (s : String) : List String :=
  (s.split Char.isWhitespace).filter (fun w => w ≠ "")

/-- Python `sep.join(parts)`. -/
def joinSep (sep : String) : List String → String
  | [] => ""
  | [x] => x
  | x :: xs => x ++ sep ++ joinSep sep xs

/-- Longest word prefix whose space-joined length plus the placeholder fits `width`. -/
def fitPrefixAux (width phLen curLen : Nat) : List String → List String
  | [] => []
  | w :: ws =>
    let newLen := if curLen = 0 then w.length else curLen + 1 + w.length
    if newLen + phLen ≤ width then w :: fitPrefixAux width phLen newLen ws
    else []

/-- `textwrap.shorten(text, width, placeholder)`, modelled from its documented
contract: whitespace is collapsed; a text that fits is returned as is; otherwise
words are dropped from the end until the remainder plus the placeholder fits
(the bare placeholder when no word fits).  Long-word breaking options are not
modelled; no claim depends on the truncation of an overlong description. -/
def pyShorten (width : Nat) (placeholder : String) (text : String) : String :=
  let words := pyWords text
  let collapsed := joinSep " " words
  if collapsed.length ≤ width then collapsed
  else
    match fitPrefixAux width placeholder.length 0 words with
    | [] => placeholder
    | w :: ws => joinSep " " (w :: ws) ++ placeholder

/-- One entry of the card body `elements` list. -/
inductive CardElement where
  | markdown (content : String)
  | hr
  | button (text btype url : String)
deriving DecidableEq, Repr

/-- The interactive card payload built by `build_feishu_card`. -/
structure FeishuCard where
  schema : String
  headerTitle : String
  headerTemplate : String
  elements : List CardElement
deriving DecidableEq, Repr

/-- `{"daily": "Daily", ...}.get(since, since)`. -/
def sinceLabel (sinceArg : String) : String :=
  if sinceArg = "daily" then "Daily"
  else if sinceArg = "weekly" then "Weekly"
  else if sinceArg = "monthly" then "Monthly"
  else sinceArg

/-- `language if language else "All Languages"`. -/
def langLabel (language : Option String) : String :=
  match language with
  | none => "All Languages"
  | some s => if s = "" then "All Languages" else s

/-- The star string of one card entry (`" · ".join(stars_part)` or the fallback). -/
def starsStr (r : TrendingRecord) : String :=
  let parts : List String :=
    (match r.stars with
      | some n => ["⭐ " ++ toString n]
      | none => [])
    ++ (match r.stars_today with
      | some m => ["+" ++ toString m ++ " today"]
      | none => [])
  match parts with
  | [] => "stars: N/A"
  | p :: ps => joinSep " · " (p :: ps)

/-- The markdown content of the card entry for `repo` at 1-based `idx`. -/
def entryContent (idx : Nat) (r : TrendingRecord) : String :=
  toString idx ++ ". **" ++ r.name ++ "**  \n"
    ++ starsStr r ++ " · " ++ pyOrStr r.language "Unknown" ++ "  \n"
    ++ pyShorten 120 "…" (pyOrStr r.description "(no description)") ++ "  \n"
    ++ r.url

/-- The `for idx, repo in enumerate(repos[:limit], start=1)` loop of `build_feishu_card`. -/
def cardEntries : Nat → List TrendingRecord → List CardElement
  | _, [] => []
  | idx, r :: rs => CardElement.markdown (entryContent idx r) :: cardEntries (idx + 1) rs

/-- The three leading info elements of the card body. -/
def cardTop (language : Option String) (sinceArg : String) (limit : Int) : List CardElement :=
  [CardElement.markdown
      ("**Language**: " ++ langLabel language ++ "  \n"
        ++ "**Period**: " ++ sinceLabel sinceArg ++ "  \n"
        ++ "**Source**: https://github.com/trending"),
    CardElement.hr,
    CardElement.markdown ("**Top " ++ toString limit ++ " Repositories**")]

/-- The trailing separator and call-to-action button of the card body. -/
def cardBottom : List CardElement :=
  [CardElement.hr,
    CardElement.button "🔍 Open GitHub Trending" "primary" "https://github.com/trending"]

/-- `build_feishu_card`. -/
def build_feishu_card (repos : List TrendingRecord) (language : Option String)
    (sinceArg : String) (limit : Int) : FeishuCard :=
  { schema := "2.0"
    headerTitle := "📈 GitHub Trending · " ++ sinceLabel sinceArg
    headerTemplate := "blue"
    elements := cardTop language sinceArg limit ++ cardEntries 1 (pySliceTo repos limit)
      ++ cardBottom }

/-- Outcome of a Python call: a returned value, or a raised exception. -/
inductive Outcome (α : Type) where
  | ok (val : α)
  | exn (msg : String)
deriving DecidableEq, Repr

/-- Whether an outcome is a returned value. -/
def Outcome.isOk {α : Type} : Outcome α → Bool
  | .ok _ => true
  | .exn _ => false

/-- JSON body of the tenant-token endpoint response, field-by-field optional
(the Python code reads a plain dict). -/
structure TokenRespBody where
  code : Option Int
  tenant_access_token : Option String
deriving DecidableEq, Repr

/-- A token-endpoint HTTP response: `raise_for_status` verdict plus JSON body. -/
structure TokenHttpResp where
  okStatus : Bool
  body : TokenRespBody
deriving DecidableEq, Repr

/-- A generic JSON API response carrying a `code` field (`raise_for_status`
verdict plus the `code` value, if present). -/
structure ApiResp where
  okStatus : Bool
  code : Option Int
deriving DecidableEq, Repr

/-- `get_tenant_access_token`, with the configured secrets and the network
response passed explicitly.  `Outcome.exn` models a raised exception. -/
def get_tenant_access_token (appId appSecret : Option String)
    (resp : Outcome TokenHttpResp) : Outcome String :=
  if pyTruthyOpt appId = false ∨ pyTruthyOpt appSecret = false then
    .exn "FEISHU_APP_ID / FEISHU_APP_SECRET not set"
  else
    match resp with
    | .exn e => .exn e
    | .ok r =>
      if r.okStatus = false then .exn "HTTPError"
      else if r.body.code = some 0 then
        match r.body.tenant_access_token with
        | some t => .ok t
        | none => .exn "KeyError: tenant_access_token"
      else .exn "get_tenant_access_token failed"

/-- A network request issued by the table writer. -/
inductive BitableCall where
  | tokenFetch
  | batchCreate (records : List BitableRecord)
deriving DecidableEq, Repr

/-- `write_records_to_bitable`: returns the requests it issues and its outcome.
Configured tokens, secrets and both network responses are explicit. -/
def write_records_to_bitable (records : List BitableRecord)
    (appToken tableId appId appSecret : Option String)
    (tokenResp : Outcome TokenHttpResp) (postResp : Outcome ApiResp) :
    List BitableCall × Outcome Unit :=
  match records with
  | [] => ([], .ok ())
  | _ =>
    if pyTruthyOpt appToken = false ∨ pyTruthyOpt tableId = false then
      ([], .exn "BITABLE app_token / table_id not set")
    else
      match get_tenant_access_token appId appSecret tokenResp with
      | .exn e => ([.tokenFetch], .exn e)
      | .ok _ =>
        match postResp with
        | .exn e => ([.tokenFetch, .batchCreate records], .exn e)
        | .ok r =>
          if r.okStatus = false then
            ([.tokenFetch, .batchCreate records], .exn "HTTPError")
          else if r.code = some 0 then
            ([.tokenFetch, .batchCreate records], .ok ())
          else
            ([.tokenFetch, .batchCreate records], .exn "Bitable batch_create failed")

/-- `send_card_to_feishu`, with the webhook response passed explicitly. -/
def send_card_to_feishu (resp : Outcome ApiResp) : Outcome Unit :=
  match resp with
  | .exn e => .exn e
  | .ok r =>
    if r.okStatus = false then .exn "HTTPError"
    else if r.code = some 0 then .ok ()
    else .exn "Feishu error"

/-- The parsed CLI arguments. -/
structure Args where
  language : Option String
  sinceArg : String
  limit : Int
  webhook : Option String
deriving DecidableEq, Repr

/-- The environment variables `main` and the module globals read. -/
structure Env where
  envWebhook : Option String
  appId : Option String
  appSecret : Option String
  bitableAppToken : Option String
  bitableTableId : Option String
deriving DecidableEq, Repr

/-- The outcomes of the four network interactions of one run. -/
structure NetOutcomes where
  fetchedBlocks : Outcome (List Block)
  tokenResp : Outcome TokenHttpResp
  batchResp : Outcome ApiResp
  webhookResp : Outcome ApiResp
deriving DecidableEq, Repr

/-- One step executed by `main`; the table-write step records its outcome. -/
inductive MainStep where
  | fetchTrending
  | buildRecords
  | writeTable (result : Outcome Unit)
  | buildCard
  | sendCard
deriving DecidableEq, Repr

/-- `all([FEISHU_APP_ID, FEISHU_APP_SECRET, BITABLE_APP_TOKEN, BITABLE_TABLE_ID])`. -/
def bitableReady (env : Env) : Bool :=
  pyTruthyOpt env.appId && pyTruthyOpt env.appSecret
    && pyTruthyOpt env.bitableAppToken && pyTruthyOpt env.bitableTableId

/-- `main`, as the list of steps it executes together with its exit code.
The `try/except` around the table write is modelled by recording the write's
outcome in the trace while letting no part of the continuation depend on it. -/
def main_run (args : Args) (env : Env) (net : NetOutcomes) (now : PyDate) :
    List MainStep × Nat :=
  let webhook_url := pyOrOpt args.webhook env.envWebhook
  if pyTruthyOpt webhook_url = false then ([], 1)
  else
    match net.fetchedBlocks with
    | .exn _ => ([MainStep.fetchTrending], 1)
    | .ok blocks =>
      let repos := fetch_trending_extract blocks
      if repos = [] then ([MainStep.fetchTrending], 0)
      else
        let tableSteps : List MainStep :=
          if bitableReady env then
            [MainStep.buildRecords,
              MainStep.writeTable
                (write_records_to_bitable
                  (build_bitable_records repos args.language args.sinceArg args.limit now)
                  env.bitableAppToken env.bitableTableId env.appId env.appSecret
                  net.tokenResp net.batchResp).2]
          else []
        let steps := MainStep.fetchTrending :: tableSteps
          ++ [MainStep.buildCard, MainStep.sendCard]
        match send_card_to_feishu net.webhookResp with
        | .exn _ => (steps, 1)
        | .ok _ => (steps, 0)

/-! ### Examples validating the library models on known values -/

example : isocalendar ⟨2026, 1, 1⟩ = (2026, 1, 4) := by decide
example : isocalendar ⟨2021, 1, 1⟩ = (2020, 53, 5) := by decide
example : isocalendar ⟨2019, 12, 30⟩ = (2020, 1, 1) := by decide
example : pyInt "1_234" = some 1234 := by decide
example : pyInt "  -5 " = some (-5) := by decide
example : pyInt "12abc" = none := by decide
example : current_date_ms ⟨1970, 1, 2⟩ = 86400000 := by decide

/-! ### C1: extraction skips exactly the title-less blocks -/

theorem extractBlock_isSome_eq_hasTitle (b : Block) :
    (extractBlock b).isSome = hasTitle b := by
  rcases b with ⟨h2, dc, dp, ls, st, stt⟩
  rcases h2 with _ | ⟨a⟩
  · rfl
  · rcases a with _ | ⟨href⟩
    · rfl
    · rcases href with _ | ⟨h⟩
      · rfl
      · by_cases hh : h = "" <;> simp [extractBlock, hasTitle, hh]

theorem fetch_trending_extract_length (blocks : List Block) :
    (fetch_trending_extract blocks).length = List.countP hasTitle blocks := by
  induction blocks with
  | nil => rfl
  | cons b bs ih =>
    rw [List.countP_cons]
    cases hb : extractBlock b with
    | none =>
      have : hasTitle b = false := by
        have := extractBlock_isSome_eq_hasTitle b
        rw [hb] at this
        exact this.symm
      simp [fetch_trending_extract, hb, ih, this]
    | some r =>
      have : hasTitle b = true := by
        have := extractBlock_isSome_eq_hasTitle b
        rw [hb] at this
        exact this.symm
      simp [fetch_trending_extract, hb, ih, this]

/-- C1: for any listing page, the extraction stage of `fetch_trending` yields
exactly one record per block with a usable title (so N records for N
well-formed and M title-less blocks); a title-less block is skipped entirely,
while a titled block always yields a record, with a missing description,
language tag or star figure degrading to `""` or an absent count. -/
theorem c1_extraction_counts (blocks : List Block) :
    (fetch_trending_extract blocks).length = List.countP hasTitle blocks
    ∧ (∀ b : Block, hasTitle b = false → extractBlock b = none)
    ∧ (∀ b : Block, hasTitle b = true →
        ∃ r, extractBlock b = some r
          ∧ (b.descCol9 = none → b.descFirstP = none → r.description = "")
          ∧ (b.langSpan = none → r.language = "")
          ∧ (b.stargazersText = none → r.stars = none)
          ∧ (b.starsTodayText = none → r.stars_today = none)) := by
  refine ⟨fetch_trending_extract_length blocks, ?_, ?_⟩
  · intro b hb
    have h := extractBlock_isSome_eq_hasTitle b
    rw [hb] at h
    exact Option.not_isSome_iff_eq_none.mp (by simp [h])
  · intro b hb
    rcases b with ⟨h2, dc, dp, ls, st, stt⟩
    rcases h2 with _ | ⟨a⟩
    · simp [hasTitle] at hb
    · rcases a with _ | ⟨href⟩
      · simp [hasTitle] at hb
      · rcases href with _ | ⟨h⟩
        · simp [hasTitle] at hb
        · by_cases hh : h = ""
          · simp [hasTitle, hh] at hb
          · refine ⟨⟨lstripSlashes (pyStrip h), "https://github.com" ++ pyStrip h,
                descriptionOf ⟨some ⟨some ⟨some h⟩⟩, dc, dp, ls, st, stt⟩,
                languageOf ⟨some ⟨some ⟨some h⟩⟩, dc, dp, ls, st, stt⟩,
                starsOf ⟨some ⟨some ⟨some h⟩⟩, dc, dp, ls, st, stt⟩,
                starsTodayOf ⟨some ⟨some ⟨some h⟩⟩, dc, dp, ls, st, stt⟩⟩, ?_, ?_, ?_, ?_, ?_⟩
            · simp only [extractBlock]
              rw [if_neg hh]
            · intro h1 h2
              simp at h1 h2
              simp [descriptionOf, h1, h2]
            · intro h1
              simp at h1
              simp [languageOf, h1]
            · intro h1
              simp at h1
              simp [starsOf, h1]
            · intro h1
              simp at h1
              simp [starsTodayOf, h1]

/-- Concrete blocks used by the witnesses below. -/
def blockFull : Block :=
  { h2 := some { anchor := some { href := some "/foo/bar" } }
    descCol9 := some "A tool."
    descFirstP := none
    langSpan := some "Python"
    stargazersText := some "1,234"
    starsTodayText := some "56 stars today" }

def blockNoTitle : Block :=
  { h2 := none
    descCol9 := some "orphan description"
    descFirstP := none
    langSpan := none
    stargazersText := some "10"
    starsTodayText := none }

theorem c1_extraction_counts_witness :
    ∃ r, extractBlock blockFull = some r
      ∧ (blockFull.descCol9 = none → blockFull.descFirstP = none → r.description = "")
      ∧ (blockFull.langSpan = none → r.language = "")
      ∧ (blockFull.stargazersText = none → r.stars = none)
      ∧ (blockFull.starsTodayText = none → r.stars_today = none) :=
  (c1_extraction_counts [blockNoTitle, blockFull]).2.2 blockFull (by decide)

/-! ### C4: unparseable star figures degrade to an absent value -/

theorem mem_of_mem_takeWhile {p : Char → Bool} {l : List Char} {c : Char}
    (h : c ∈ l.takeWhile p) : c ∈ l := by
  induction l with
  | nil => simp at h
  | cons a as ih =>
    by_cases hp : p a
    · rw [List.takeWhile_cons_of_pos hp] at h
      rcases List.mem_cons.mp h with h1 | h2
      · exact h1 ▸ List.mem_cons_self _ _
      · exact List.mem_cons_of_mem _ (ih h2)
    · rw [List.takeWhile_cons_of_neg hp] at h
      simp at h

theorem mem_of_mem_dropWhile {p : Char → Bool} {l : List Char} {c : Char}
    (h : c ∈ l.dropWhile p) : c ∈ l := by
  induction l with
  | nil => simp at h
  | cons a as ih =>
    by_cases hp : p a
    · rw [List.dropWhile_cons_of_pos hp] at h
      exact List.mem_cons_of_mem _ (ih h)
    · rw [List.dropWhile_cons_of_neg hp] at h
      exact h

/-- The block of the C4 counterexample: well-formed, with the realistic
stars-today text `"1,234 stars today"`. -/
def c4Block : Block :=
  { h2 := some { anchor := some { href := some "/foo/bar" } }
    descCol9 := none
    descFirstP := none
    langSpan := none
    stargazersText := none
    starsTodayText := some "1,234 stars today" }

/-- C4 counterexample: the stars-today text `"1,234 stars today"` is not
parseable as an integer after removing commas, yet extraction yields
`stars_today = some 1234` (the code parses only the first space-separated
token), not an absent value as the claim states. -/
theorem c4_counterexample :
    pyInt (pyRemoveCommas "1,234 stars today") = none
    ∧ extractBlock c4Block = some
        { name := "foo/bar", url := "https://github.com/foo/bar", description := "",
          language := "", stars := none, stars_today := some 1234 } := by
  constructor
  · decide
  · decide

/-- C4 (amended): if the total-stars text with commas removed is unparseable,
extraction behaves exactly as if the star figure were missing (`stars = none`,
all other fields untouched, no error); likewise for the stars-today field,
whose parsed figure is the first space-separated token of its text. -/
theorem c4_amended_unparseable_stars (b : Block) :
    (∀ t, b.stargazersText = some t → pyInt (pyRemoveCommas t) = none →
      extractBlock b = extractBlock { b with stargazersText := none }
        ∧ ∀ r, extractBlock b = some r → r.stars = none)
    ∧ (∀ t, b.starsTodayText = some t →
        pyInt (pyRemoveCommas ⟨t.data.takeWhile (fun c => c ≠ ' ')⟩) = none →
      extractBlock b = extractBlock { b with starsTodayText := none }
        ∧ ∀ r, extractBlock b = some r → r.stars_today = none) := by
  rcases b with ⟨h2, dc, dp, ls, st, stt⟩
  constructor
  · rintro t rfl hp
    rcases h2 with _ | ⟨a⟩
    · exact ⟨rfl, by intro r hr; cases hr⟩
    · rcases a with _ | ⟨href⟩
      · exact ⟨rfl, by intro r hr; cases hr⟩
      · rcases href with _ | ⟨h⟩
        · exact ⟨rfl, by intro r hr; cases hr⟩
        · by_cases hh : h = ""
          · constructor
            · simp [extractBlock, hh]
            · intro r hr
              simp [extractBlock, hh] at hr
          · constructor
            · simp [extractBlock, hh, descriptionOf, languageOf, starsOf, starsTodayOf, hp]
            · intro r hr
              simp [extractBlock, hh] at hr
              rw [← hr]
              simp [starsOf, hp]
  · rintro t rfl hp
    simp only [ne_eq, decide_not] at hp
    rcases h2 with _ | ⟨a⟩
    · exact ⟨rfl, by intro r hr; cases hr⟩
    · rcases a with _ | ⟨href⟩
      · exact ⟨rfl, by intro r hr; cases hr⟩
      · rcases href with _ | ⟨h⟩
        · exact ⟨rfl, by intro r hr; cases hr⟩
        · by_cases hh : h = ""
          · constructor
            · simp [extractBlock, hh]
            · intro r hr
              simp [extractBlock, hh] at hr
          · constructor
            · simp [extractBlock, hh, descriptionOf, languageOf, starsOf, starsTodayOf, hp]
            · intro r hr
              simp [extractBlock, hh] at hr
              rw [← hr]
              simp [starsTodayOf, hp]

/-- The block of the C4 witness: a titled block with unparseable total-stars text. -/
def c4WitnessBlock : Block :=
  { h2 := some { anchor := some { href := some "/w/x" } }
    descCol9 := none
    descFirstP := none
    langSpan := none
    stargazersText := some "1.2k"
    starsTodayText := none }

theorem c4_amended_unparseable_stars_witness :
    extractBlock c4WitnessBlock = extractBlock { c4WitnessBlock with stargazersText := none }
      ∧ ∀ r, extractBlock c4WitnessBlock = some r → r.stars = none :=
  (c4_amended_unparseable_stars c4WitnessBlock).1 "1.2k" rfl (by decide)

/-! ### C9: present star counts and their sign -/

/-- The block of the C9 counterexample: a stargazers text carrying a sign. -/
def c9Block : Block :=
  { h2 := some { anchor := some { href := some "/a/b" } }
    descCol9 := none
    descFirstP := none
    langSpan := none
    stargazersText := some "-5"
    starsTodayText := none }

/-- C9 counterexample: on the markup block whose stargazers text is `"-5"`,
extraction yields the present star count `-5`, which is negative — so present
star counts are not non-negative for arbitrary input markup. -/
theorem c9_counterexample :
    extractBlock c9Block = some
      { name := "a/b", url := "https://github.com/a/b", description := "",
        language := "", stars := some (-5), stars_today := none }
    ∧ (-5 : Int) < 0 := by
  constructor
  · decide
  · decide

theorem no_minus_pyStrip {s : String} (h : '-' ∉ s.data) : '-' ∉ (pyStrip s).data := by
  intro hc
  apply h
  have hc' : '-' ∈ ((s.data.dropWhile Char.isWhitespace).reverse.dropWhile
      Char.isWhitespace).reverse := hc
  rw [List.mem_reverse] at hc'
  have hc'' := mem_of_mem_dropWhile hc'
  rw [List.mem_reverse] at hc''
  exact mem_of_mem_dropWhile hc''

theorem pyInt_nonneg_of_no_minus {s : String} {n : Int}
    (hp : pyInt s = some n) (h : '-' ∉ s.data) : 0 ≤ n := by
  have h' : '-' ∉ (pyStrip s).data := no_minus_pyStrip h
  unfold pyInt at hp
  cases hd : (pyStrip s).data with
  | nil =>
    rw [hd] at hp
    cases hp
  | cons c rest =>
    rw [hd] at hp
    rw [hd] at h'
    have hc : ¬c = '-' := by
      intro e
      exact h' (e ▸ List.mem_cons_self _ _)
    rw [pyIntCore, if_neg hc] at hp
    by_cases hplus : c = '+'
    · rw [if_pos hplus] at hp
      obtain ⟨m, _, hm⟩ := Option.map_eq_some'.mp hp
      rw [← hm]
      exact Int.natCast_nonneg m
    · rw [if_neg hplus] at hp
      obtain ⟨m, _, hm⟩ := Option.map_eq_some'.mp hp
      rw [← hm]
      exact Int.natCast_nonneg m

theorem no_minus_pyRemoveCommas {t : String} (h : '-' ∉ t.data) :
    '-' ∉ (pyRemoveCommas t).data := by
  intro hc
  exact h (List.mem_filter.mp hc).1

theorem extractBlock_star_fields (b : Block) (r : TrendingRecord)
    (h : extractBlock b = some r) :
    r.stars = starsOf b ∧ r.stars_today = starsTodayOf b := by
  rcases b with ⟨h2, dc, dp, ls, st, stt⟩
  rcases h2 with _ | ⟨a⟩
  · cases h
  · rcases a with _ | ⟨href⟩
    · cases h
    · rcases href with _ | ⟨hr⟩
      · cases h
      · by_cases hh : hr = ""
        · simp [extractBlock, hh] at h
        · simp [extractBlock, hh] at h
          rw [← h]
          exact ⟨rfl, rfl⟩

/-- C9 (amended): a present star count is always the integer parsed from the
source text (so it can be negative for adversarial markup such as `"-5"`), and
it is non-negative whenever the source text contains no minus sign — in
particular on every real trending page; a missing figure stays absent. -/
theorem c9_amended_present_star_sign (b : Block) (r : TrendingRecord)
    (h : extractBlock b = some r) :
    (∀ t n, b.stargazersText = some t → '-' ∉ t.data → r.stars = some n → 0 ≤ n)
    ∧ (∀ t n, b.starsTodayText = some t → '-' ∉ t.data → r.stars_today = some n → 0 ≤ n)
    ∧ (b.stargazersText = none → r.stars = none)
    ∧ (b.starsTodayText = none → r.stars_today = none) := by
  obtain ⟨hs, ht⟩ := extractBlock_star_fields b r h
  refine ⟨?_, ?_, ?_, ?_⟩
  · intro t n hst hm hsome
    rw [hs] at hsome
    rw [starsOf, hst] at hsome
    exact pyInt_nonneg_of_no_minus hsome (no_minus_pyRemoveCommas hm)
  · intro t n hst hm hsome
    rw [ht] at hsome
    rw [starsTodayOf, hst] at hsome
    have hm' : '-' ∉ (⟨t.data.takeWhile (fun c => c ≠ ' ')⟩ : String).data := by
      intro hc
      exact hm (mem_of_mem_takeWhile hc)
    exact pyInt_nonneg_of_no_minus hsome (no_minus_pyRemoveCommas hm')
  · intro hst
    rw [hs, starsOf, hst]
  · intro hst
    rw [ht, starsTodayOf, hst]

theorem c9_amended_present_star_sign_witness :
    (0 : Int) ≤ 1234 :=
  (c9_amended_present_star_sign blockFull
      ⟨"foo/bar", "https://github.com/foo/bar", "A tool.", "Python", some 1234, some 56⟩
      (by decide)).1 "1,234" 1234 rfl (by decide) (by decide)

/-! ### C3: the composite source tag -/

/-- C3: for every current date and optional language, `build_source_tag`
produces `<source>:<period>:<period-bucket>:<language-or-all>`, where the
bucket is the ISO year-week (`isocalendar`) for `weekly`, `YYYY-MM` for
`monthly` and `YYYY-MM-DD` for `daily`. -/
theorem c3_build_source_tag (now : PyDate) (language : Option String) :
    (build_source_tag "weekly" language now
      = "github-trending" ++ ":" ++ "weekly" ++ ":"
          ++ (fmtYear (isocalendar now).1 ++ "-W" ++ pad2 (isocalendar now).2.1)
          ++ ":" ++ langKey language)
    ∧ (build_source_tag "monthly" language now
      = "github-trending" ++ ":" ++ "monthly" ++ ":"
          ++ (fmtYear now.year ++ "-" ++ pad2 now.month) ++ ":" ++ langKey language)
    ∧ (build_source_tag "daily" language now
      = "github-trending" ++ ":" ++ "daily" ++ ":"
          ++ (fmtYear now.year ++ "-" ++ pad2 now.month ++ "-" ++ pad2 now.day)
          ++ ":" ++ langKey language) := by
  refine ⟨?_, ?_, ?_⟩
  · have h1 : ("github-trending" ++ ":" ++ "weekly" ++ ":" : String)
        = "github-trending:weekly:" := by decide
    rw [h1]
    simp [build_source_tag, String.append_assoc]
  · have h1 : ("github-trending" ++ ":" ++ "monthly" ++ ":" : String)
        = "github-trending:monthly:" := by decide
    rw [h1]
    simp [build_source_tag, String.append_assoc]
  · have h1 : ("github-trending" ++ ":" ++ "daily" ++ ":" : String)
        = "github-trending:daily:" := by decide
    rw [h1]
    simp [build_source_tag, String.append_assoc]

/-! ### List lemmas for the limit/rank claims -/

theorem buildRows_length (d : Int) (s : String) :
    ∀ (start : Nat) (l : List TrendingRecord),
      (buildRows d s start l).length = l.length := by
  intro start l
  induction l generalizing start with
  | nil => rfl
  | cons r rs ih => simp [buildRows, ih (start + 1)]

theorem buildRows_getElem (d : Int) (s : String) :
    ∀ (start : Nat) (l : List TrendingRecord) (i : Nat),
      (buildRows d s start l)[i]?
        = (l[i]?).map (fun r => bitableRow d s (start + i) r) := by
  intro start l
  induction l generalizing start with
  | nil => intro i; simp [buildRows]
  | cons r rs ih =>
    intro i
    cases i with
    | zero => simp [buildRows]
    | succ j =>
      have h := ih (start + 1) j
      have harith : start + 1 + j = start + (j + 1) := by omega
      simp only [buildRows, List.getElem?_cons_succ, h, harith]

theorem cardEntries_length :
    ∀ (start : Nat) (l : List TrendingRecord),
      (cardEntries start l).length = l.length := by
  intro start l
  induction l generalizing start with
  | nil => rfl
  | cons r rs ih => simp [cardEntries, ih (start + 1)]

theorem cardEntries_getElem :
    ∀ (start : Nat) (l : List TrendingRecord) (i : Nat),
      (cardEntries start l)[i]?
        = (l[i]?).map (fun r => CardElement.markdown (entryContent (start + i) r)) := by
  intro start l
  induction l generalizing start with
  | nil => intro i; simp [cardEntries]
  | cons r rs ih =>
    intro i
    cases i with
    | zero => simp [cardEntries]
    | succ j =>
      have h := ih (start + 1) j
      have harith : start + 1 + j = start + (j + 1) := by omega
      simp only [cardEntries, List.getElem?_cons_succ, h, harith]

theorem pySliceTo_length (l : List TrendingRecord) (k : Int)
    (hk : 0 ≤ k) (hN : k < (l.length : Int)) :
    ((pySliceTo l k).length : Int) = k := by
  rw [pySliceTo, if_pos hk, List.length_take]
  have h1 : k.toNat ≤ l.length := by omega
  rw [min_eq_left h1]
  omega

theorem entryContent_numbered (n : Nat) (r : TrendingRecord) :
    ∃ rest, entryContent n r = toString n ++ (". " ++ rest) := by
  refine ⟨"**" ++ r.name ++ "**  \n" ++ starsStr r ++ " · " ++ pyOrStr r.language "Unknown"
      ++ "  \n" ++ pyShorten 120 "…" (pyOrStr r.description "(no description)") ++ "  \n"
      ++ r.url, ?_⟩
  simp only [entryContent, String.append_assoc]
  congr 1

/-! ### C2: truncation to the limit and 1-based ranks -/

/-- C2: with `limit = k` (`0 ≤ k`) and more than `k` extracted records,
`build_bitable_records` yields exactly `k` rows whose `Rank` fields are
`1..k` in order, and `build_feishu_card` yields exactly `k` per-record
entries between the info header and the footer, the `i`-th being the
markdown entry for the `i`-th record, numbered `i`. -/
theorem c2_limit_truncation_and_ranks
    (repos : List TrendingRecord) (language : Option String) (sinceArg : String)
    (k : Int) (now : PyDate) (hk : 0 ≤ k) (hN : k < (repos.length : Int)) :
    ((build_bitable_records repos language sinceArg k now).length : Int) = k
    ∧ (∀ i row, (build_bitable_records repos language sinceArg k now)[i]? = some row →
        row.fields.Rank = i + 1)
    ∧ ((build_feishu_card repos language sinceArg k).elements
        = cardTop language sinceArg k ++ cardEntries 1 (pySliceTo repos k) ++ cardBottom)
    ∧ ((cardEntries 1 (pySliceTo repos k)).length : Int) = k
    ∧ (∀ i r, (pySliceTo repos k)[i]? = some r →
        ∃ rest, (cardEntries 1 (pySliceTo repos k))[i]?
            = some (CardElement.markdown (entryContent (i + 1) r))
          ∧ entryContent (i + 1) r = toString (i + 1) ++ (". " ++ rest)) := by
  refine ⟨?_, ?_, rfl, ?_, ?_⟩
  · rw [build_bitable_records, buildRows_length]
    exact pySliceTo_length repos k hk hN
  · intro i row h
    rw [build_bitable_records, buildRows_getElem] at h
    cases hs : (pySliceTo repos k)[i]? with
    | none => rw [hs] at h; cases h
    | some r =>
      rw [hs] at h
      have : bitableRow (current_date_ms now) (build_source_tag sinceArg language now)
          (1 + i) r = row := by
        simpa using h
      rw [← this]
      simp [bitableRow]
      omega
  · rw [cardEntries_length]
    exact pySliceTo_length repos k hk hN
  · intro i r h
    obtain ⟨rest, hrest⟩ := entryContent_numbered (i + 1) r
    refine ⟨rest, ?_, hrest⟩
    rw [cardEntries_getElem, h]
    simp
    congr 1
    omega

/-- Concrete records used by the witnesses below. -/
def recA : TrendingRecord :=
  { name := "foo/bar", url := "https://github.com/foo/bar", description := "A tool.",
    language := "Python", stars := some 9876, stars_today := some 55 }

def recB : TrendingRecord :=
  { name := "baz/qux", url := "https://github.com/baz/qux", description := "",
    language := "", stars := none, stars_today := none }

theorem c2_limit_truncation_and_ranks_witness :
    ((build_bitable_records [recA, recB] none "daily" 1 ⟨2025, 10, 12⟩).length : Int) = 1 :=
  (c2_limit_truncation_and_ranks [recA, recB] none "daily" 1 ⟨2025, 10, 12⟩
    (by decide) (by decide)).1

/-! ### C10: absent star counts in table rows and card entries -/

/-- C10: a record with an absent star figure is written to the table with the
integer `0` in the corresponding field (`Stars`/`TodayStars` are always
integers), while the card's `starsStr` instead omits the missing figure and
shows `"stars: N/A"` when both figures are absent; `starsStr` appears verbatim
inside each record's card entry. -/
theorem c10_absent_star_fields
    (repos : List TrendingRecord) (language : Option String) (sinceArg : String)
    (k : Int) (now : PyDate) :
    (∀ (i : Nat) (r : TrendingRecord) (row : BitableRecord),
        (pySliceTo repos k)[i]? = some r →
        (build_bitable_records repos language sinceArg k now)[i]? = some row →
        (r.stars = none → row.fields.Stars = 0)
          ∧ (r.stars_today = none → row.fields.TodayStars = 0))
    ∧ (∀ r : TrendingRecord, r.stars = none → r.stars_today = none →
        starsStr r = "stars: N/A")
    ∧ (∀ (r : TrendingRecord) (n : Int), r.stars = some n → r.stars_today = none →
        starsStr r = "⭐ " ++ toString n)
    ∧ (∀ (r : TrendingRecord) (m : Int), r.stars = none → r.stars_today = some m →
        starsStr r = "+" ++ toString m ++ " today")
    ∧ (∀ (n : Nat) (r : TrendingRecord), ∃ pre post,
        entryContent n r = pre ++ (starsStr r ++ post)) := by
  refine ⟨?_, ?_, ?_, ?_, ?_⟩
  · intro i r row hs hrow
    rw [build_bitable_records, buildRows_getElem, hs] at hrow
    have hb : bitableRow (current_date_ms now) (build_source_tag sinceArg language now)
        (1 + i) r = row := by
      simpa using hrow
    rw [← hb]
    constructor
    · intro h1
      simp [bitableRow, h1]
    · intro h1
      simp [bitableRow, h1]
  · intro r h1 h2
    simp [starsStr, h1, h2]
  · intro r n h1 h2
    simp [starsStr, joinSep, h1, h2]
  · intro r m h1 h2
    simp [starsStr, joinSep, h1, h2]
  · intro n r
    refine ⟨toString n ++ ". **" ++ r.name ++ "**  \n",
      " · " ++ pyOrStr r.language "Unknown" ++ "  \n"
        ++ pyShorten 120 "…" (pyOrStr r.description "(no description)") ++ "  \n"
        ++ r.url, ?_⟩
    simp only [entryContent, String.append_assoc]

theorem c10_absent_star_fields_witness :
    starsStr recB = "stars: N/A" :=
  (c10_absent_star_fields [recB] none "daily" 1 ⟨2025, 10, 12⟩).2.1 recB rfl rfl

/-! ### C7: failure modes of the token provider -/

theorem bool_eq_true_of_ne_false {b : Bool} (h : ¬b = false) : b = true := by
  cases b
  · exact absurd rfl h
  · rfl

/-- C7 counterexample: with both secrets set, a successful transport and a
body carrying `code = 0` but no `tenant_access_token` field, the function
still raises (a `KeyError`), so it does not fail in exactly the three claimed
cases. -/
theorem c7_counterexample :
    pyTruthyOpt (some "app-id") = true
    ∧ pyTruthyOpt (some "app-secret") = true
    ∧ (get_tenant_access_token (some "app-id") (some "app-secret")
        (Outcome.ok ⟨true, ⟨some 0, none⟩⟩)).isOk = false := by
  refine ⟨by decide, by decide, by decide⟩

/-- C7 (amended): `get_tenant_access_token` raises exactly when a secret is
unset or empty, the transport/HTTP request fails, the body's `code` field is
absent or non-zero (regardless of the HTTP status), or the body lacks the
`tenant_access_token` field; otherwise it returns the token from the
response. -/
theorem c7_token_failure_modes (appId appSecret : Option String)
    (resp : Outcome TokenHttpResp) :
    ((get_tenant_access_token appId appSecret resp).isOk = false
      ↔ (pyTruthyOpt appId = false ∨ pyTruthyOpt appSecret = false
          ∨ (∃ e, resp = Outcome.exn e)
          ∨ (∃ r, resp = Outcome.ok r
              ∧ (r.okStatus = false ∨ r.body.code ≠ some 0
                  ∨ r.body.tenant_access_token = none))))
    ∧ (∀ t, get_tenant_access_token appId appSecret resp = Outcome.ok t
        ↔ (pyTruthyOpt appId = true ∧ pyTruthyOpt appSecret = true
            ∧ ∃ r, resp = Outcome.ok r ∧ r.okStatus = true ∧ r.body.code = some 0
              ∧ r.body.tenant_access_token = some t)) := by
  constructor
  · constructor
    · intro hfail
      by_cases h1 : pyTruthyOpt appId = false
      · exact Or.inl h1
      by_cases h2 : pyTruthyOpt appSecret = false
      · exact Or.inr (Or.inl h2)
      have hsec : ¬(pyTruthyOpt appId = false ∨ pyTruthyOpt appSecret = false) := by
        simp [h1, h2]
      cases resp with
      | exn e => exact Or.inr (Or.inr (Or.inl ⟨e, rfl⟩))
      | ok r =>
        refine Or.inr (Or.inr (Or.inr ⟨r, rfl, ?_⟩))
        by_cases hok : r.okStatus = false
        · exact Or.inl hok
        by_cases hcode : r.body.code = some 0
        · right
          right
          cases htok : r.body.tenant_access_token with
          | none => rfl
          | some t =>
            exfalso
            have hval : get_tenant_access_token appId appSecret (Outcome.ok r)
                = Outcome.ok t := by
              simp [get_tenant_access_token, hsec, hok, hcode, htok]
            rw [hval] at hfail
            simp [Outcome.isOk] at hfail
        · exact Or.inr (Or.inl hcode)
    · intro hcase
      by_cases hsec : pyTruthyOpt appId = false ∨ pyTruthyOpt appSecret = false
      · simp [get_tenant_access_token, hsec, Outcome.isOk]
      · rcases hcase with h | h | ⟨e, rfl⟩ | ⟨r, rfl, hbad⟩
        · exact absurd (Or.inl h) hsec
        · exact absurd (Or.inr h) hsec
        · simp [get_tenant_access_token, hsec, Outcome.isOk]
        · rcases hbad with hok | hcode | htok
          · simp [get_tenant_access_token, hsec, hok, Outcome.isOk]
          · by_cases hok' : r.okStatus = false
            · simp [get_tenant_access_token, hsec, hok', Outcome.isOk]
            · simp [get_tenant_access_token, hsec, hok', hcode, Outcome.isOk]
          · by_cases hok' : r.okStatus = false
            · simp [get_tenant_access_token, hsec, hok', Outcome.isOk]
            · by_cases hcode' : r.body.code = some 0
              · simp [get_tenant_access_token, hsec, hok', hcode', htok, Outcome.isOk]
              · simp [get_tenant_access_token, hsec, hok', hcode', Outcome.isOk]
  · intro t
    constructor
    · intro h
      by_cases hsec : pyTruthyOpt appId = false ∨ pyTruthyOpt appSecret = false
      · simp [get_tenant_access_token, hsec] at h
      · have ha : pyTruthyOpt appId = true :=
          bool_eq_true_of_ne_false (fun hx => hsec (Or.inl hx))
        have hb : pyTruthyOpt appSecret = true :=
          bool_eq_true_of_ne_false (fun hx => hsec (Or.inr hx))
        cases resp with
        | exn e => simp [get_tenant_access_token, hsec] at h
        | ok r =>
          by_cases hok : r.okStatus = false
          · simp [get_tenant_access_token, hsec, hok] at h
          · by_cases hcode : r.body.code = some 0
            · cases htok : r.body.tenant_access_token with
              | none => simp [get_tenant_access_token, hsec, hok, hcode, htok] at h
              | some t' =>
                have ht : t' = t := by
                  simpa [get_tenant_access_token, hsec, hok, hcode, htok] using h
                exact ⟨ha, hb, r, rfl, bool_eq_true_of_ne_false hok, hcode,
                  by rw [htok, ht]⟩
            · simp [get_tenant_access_token, hsec, hok, hcode] at h
    · rintro ⟨ha, hb, r, rfl, hok, hcode, htok⟩
      have hsec : ¬(pyTruthyOpt appId = false ∨ pyTruthyOpt appSecret = false) := by
        simp [ha, hb]
      simp [get_tenant_access_token, hsec, hok, hcode, htok]

theorem c7_token_failure_modes_witness :
    (get_tenant_access_token (some "id") (some "secret")
      (Outcome.exn "net down")).isOk = false :=
  ((c7_token_failure_modes (some "id") (some "secret") (Outcome.exn "net down")).1).mpr
    (Or.inr (Or.inr (Or.inl ⟨"net down", rfl⟩)))

/-! ### C8: the table writer is a no-op on an empty record list -/

/-- C8: with an empty record list, `write_records_to_bitable` issues no token
request and no batch-create request and returns without error, whatever the
Bitable configuration and whatever the network would have answered. -/
theorem c8_empty_records_noop (appToken tableId appId appSecret : Option String)
    (tokenResp : Outcome TokenHttpResp) (postResp : Outcome ApiResp) :
    write_records_to_bitable [] appToken tableId appId appSecret tokenResp postResp
      = ([], Outcome.ok ()) := rfl

/-! ### C5: exit codes of `main` -/

/-- C5: the exit code of `main` is `1` exactly on a missing (falsy) webhook
URL, a fetch failure, or a send failure; it is `0` on full success and when
no records were extracted; it does not depend on the Bitable configuration,
the token response or the batch-create response, so a table-write failure
never changes it. -/
theorem c5_exit_codes (args : Args) (env : Env) (net : NetOutcomes) (now : PyDate) :
    (main_run args env net now).2 =
      (if pyTruthyOpt (pyOrOpt args.webhook env.envWebhook) = false then 1
       else
        match net.fetchedBlocks with
        | Outcome.exn _ => 1
        | Outcome.ok blocks =>
          if fetch_trending_extract blocks = [] then 0
          else if (send_card_to_feishu net.webhookResp).isOk then 0 else 1) := by
  by_cases hw : pyTruthyOpt (pyOrOpt args.webhook env.envWebhook) = false
  · simp [main_run, hw]
  · cases hf : net.fetchedBlocks with
    | exn e => simp [main_run, hw, hf]
    | ok blocks =>
      by_cases hr : fetch_trending_extract blocks = []
      · simp [main_run, hw, hf, hr]
      · cases hs : send_card_to_feishu net.webhookResp with
        | exn e => simp [main_run, hw, hf, hr, hs, Outcome.isOk]
        | ok u => simp [main_run, hw, hf, hr, hs, Outcome.isOk]

/-! ### C6: a failed table write is caught and the card is still sent -/

/-- C6: whenever the table-write step of a run raises (for any reason), the
error is caught: the card-build and card-send steps still execute, and the
exit code is decided by the send outcome alone. -/
theorem c6_table_write_error_ignored (args : Args) (env : Env) (net : NetOutcomes)
    (now : PyDate) (e : String)
    (hmem : MainStep.writeTable (Outcome.exn e) ∈ (main_run args env net now).1) :
    MainStep.buildCard ∈ (main_run args env net now).1
    ∧ MainStep.sendCard ∈ (main_run args env net now).1
    ∧ (main_run args env net now).2
        = (if (send_card_to_feishu net.webhookResp).isOk then 0 else 1) := by
  by_cases hw : pyTruthyOpt (pyOrOpt args.webhook env.envWebhook) = false
  · simp [main_run, hw] at hmem
  · cases hf : net.fetchedBlocks with
    | exn e2 => simp [main_run, hw, hf] at hmem
    | ok blocks =>
      by_cases hr : fetch_trending_extract blocks = []
      · simp [main_run, hw, hf, hr] at hmem
      · by_cases hb : bitableReady env = true <;>
          cases hs : send_card_to_feishu net.webhookResp <;>
            refine ⟨?_, ?_, ?_⟩ <;>
              simp [main_run, hw, hf, hr, hs, hb, Outcome.isOk]

/-- Concrete run exercising C6: bitable fully configured, token request dies,
card still delivered. -/
def argsW : Args :=
  { language := none, sinceArg := "daily", limit := 10, webhook := some "https://hook" }

def envW : Env :=
  { envWebhook := none, appId := some "id", appSecret := some "secret",
    bitableAppToken := some "tokenA", bitableTableId := some "tableT" }

def netW : NetOutcomes :=
  { fetchedBlocks := .ok [blockFull], tokenResp := .exn "auth down",
    batchResp := .ok { okStatus := true, code := some 0 },
    webhookResp := .ok { okStatus := true, code := some 0 } }

theorem c6_table_write_error_ignored_witness :
    MainStep.buildCard ∈ (main_run argsW envW netW ⟨2025, 10, 12⟩).1 :=
  (c6_table_write_error_ignored argsW envW netW ⟨2025, 10, 12⟩ "auth down" (by decide)).1

end GithubTrending
